import Mathlib

/-!
Shallow embedding of the Cheminformatics dashboard pipeline
(`dash_app.py`, `data_gathering.py`) and proofs about its behaviour.

Conventions of the embedding:
* A pandas activity dataframe is a `List ActivityRow`; the columns used by
  the dashboard are carried explicitly, optional columns are `Option`.
* A Python dict read from a one-row CSV (`pd.read_csv(p).iloc[0].to_dict()`)
  is an association list `List (String × Option String)`; a `none` value is
  the null/NaN marker.
* The filesystem visible to `load_data` is a pair of partial maps from path
  to load outcome; `none` = the file does not exist (`os.path.exists` is
  false), `some (.error ())` = the read (or a later operation on the loaded
  frame, e.g. a missing column) raises and is caught by the surrounding
  `except`, `some (.ok v)` = the read succeeds with contents `v`.
* Remote HTTP interactions are modelled by a response datatype enumerating
  the outcomes distinguished by the code: a `requests` network failure, a
  non-2xx status (`raise_for_status`), and a 2xx body that may or may not
  parse.
* Raising an uncaught exception is modelled by returning `none` from an
  `Option`-valued function; functions that catch every exception are total.
-/

namespace Chem

/-- One row of a persisted `{compound}_activity_data.csv` file as the
dashboard sees it after `pd.read_csv`. -/
structure ActivityRow where
  activity_id : String
  assay_description : String
  standard_type : String
  standard_value : String
  standard_units : Option String
  target_organism : Option String
  target_pref_name : Option String
deriving DecidableEq

/-- A drug-info dict, i.e. `pd.read_csv(info_filepath).iloc[0].to_dict()`:
keys to possibly-null values. -/
abbrev DrugInfoCsv : Type := List (String × Option String)

/-- Outcome of reading a file: `Except` failure models a caught exception. -/
abbrev ReadResult (α : Type) : Type := Except Unit α

/-- The filesystem as observed by `load_data`: activity CSVs and drug-info
CSVs addressed by path.  `none` means `os.path.exists` is false. -/
structure FileSystem where
  activityFile : String → Option (ReadResult (List ActivityRow))
  infoFile : String → Option (ReadResult DrugInfoCsv)

/-- `metrics = ["ED50", "TD50"]` from `load_data`. -/
def metrics : List String := ["ED50", "TD50"]

/-- `os.path.join(data_directory, f"{compound}_activity_data.csv")`. -/
def activityPath (dataDir compound : String) : String :=
  dataDir ++ "/" ++ compound ++ "_activity_data.csv"

/-- `os.path.join("drug_info", f"{compound}_info.csv")`. -/
def infoPath (compound : String) : String :=
  "drug_info/" ++ compound ++ "_info.csv"

/-- `df[df["standard_type"].isin(metrics)]`. -/
def filterMetrics (df : List ActivityRow) : List ActivityRow :=
  df.filter (fun r => metrics.contains r.standard_type)

/-- The body of `load_data`'s per-compound loop.  Returns the entry added to
`data` and the entry added to `properties` (if any).  The code assigns
`data[compound]` before reading the info file, so an info-file read failure
(caught by the same `except`) still leaves the compound in `data`. -/
def processCompound (fs : FileSystem) (dataDir compound : String) :
    Option (String × List ActivityRow) × Option (String × DrugInfoCsv) :=
  match fs.activityFile (activityPath dataDir compound) with
  | none => (none, none)
  | some (Except.error _) => (none, none)
  | some (Except.ok df) =>
    let df_filtered := filterMetrics df
    if df_filtered.isEmpty then (none, none)
    else
      match fs.infoFile (infoPath compound) with
      | none => (some (compound, df_filtered), none)
      | some (Except.error _) => (some (compound, df_filtered), none)
      | some (Except.ok info) =>
        (some (compound, df_filtered), some (compound, info))

/-- `load_data(data_directory, compounds)`: iterate over the manifest
compounds, building the activity mapping and the properties mapping. -/
def load_data (fs : FileSystem) (dataDir : String) (compounds : List String) :
    List (String × List ActivityRow) × List (String × DrugInfoCsv) :=
  match compounds with
  | [] => ([], [])
  | compound :: rest =>
    let p := processCompound fs dataDir compound
    let r := load_data fs dataDir rest
    (p.1.toList ++ r.1, p.2.toList ++ r.2)

/-- The condition under which `load_data` keeps a compound's activity data:
the file exists, loads, and the metric filter leaves at least one row. -/
def activityOk (fs : FileSystem) (dataDir compound : String) :
    Option (List ActivityRow) :=
  match fs.activityFile (activityPath dataDir compound) with
  | some (Except.ok df) =>
    let df_filtered := filterMetrics df
    if df_filtered.isEmpty then none else some df_filtered
  | _ => none

/-- The condition under which `load_data` records a compound's drug info:
the info file exists and its first row loads. -/
def infoOk (fs : FileSystem) (compound : String) : Option DrugInfoCsv :=
  match fs.infoFile (infoPath compound) with
  | some (Except.ok info) => some info
  | _ => none

/-! ### Visualization builder (`create_visualizations`) -/

/-- One plotly trace, as much of it as the code computes from the data. -/
structure Trace where
  name : String
  xs : List String
  ys : List String
  text : List String
deriving DecidableEq

/-- A plotly figure: title and traces. -/
structure Figure where
  title : String
  traces : List Trace
deriving DecidableEq

/-- Python `str.capitalize()`: first character upper-cased, rest lower. -/
def pyCapitalize (s : String) : String :=
  match s.data with
  | [] => ""
  | c :: cs => String.mk (c.toUpper :: cs.map Char.toLower)

/-- `all(metric in df["standard_type"].values for metric in ["ED50", "TD50"])`. -/
def hasBothMetrics (df : List ActivityRow) : Bool :=
  metrics.all (fun metric => df.any (fun r => r.standard_type == metric))

/-- The ED50-vs-TD50 scatter figure built for one compound. -/
def scatterFig (compound : String) (df : List ActivityRow) : Figure :=
  { title := pyCapitalize compound ++ ": ED50 vs TD50 by Target Organism",
    traces := metrics.map (fun metric =>
      let filtered_df := df.filter (fun r => r.standard_type == metric)
      { name := metric,
        xs := filtered_df.map (fun r => r.standard_value),
        ys := List.replicate filtered_df.length metric,
        text := filtered_df.map (fun r => r.assay_description) }) }

/-- The ED50/TD50 distribution (box) figure built for one compound. -/
def boxFig (compound : String) (df : List ActivityRow) : Figure :=
  { title := pyCapitalize compound ++ ": Distribution of ED50 and TD50",
    traces := metrics.map (fun metric =>
      let filtered_df := df.filter (fun r => r.standard_type == metric)
      { name := metric,
        xs := List.replicate filtered_df.length metric,
        ys := filtered_df.map (fun r => r.standard_value),
        text := filtered_df.map (fun r => r.assay_description) }) }

/-- `create_visualizations(data)`: for each compound whose table contains
both metrics, add the `{compound}_ed_td` scatter and the
`{compound}_distribution` box figure, in that order. -/
def create_visualizations (data : List (String × List ActivityRow)) :
    List (String × Figure) :=
  data.flatMap (fun p =>
    if hasBothMetrics p.2 then
      [(p.1 ++ "_ed_td", scatterFig p.1 p.2),
       (p.1 ++ "_distribution", boxFig p.1 p.2)]
    else [])

/-- The figure keys produced by `create_visualizations`, in insertion order. -/
def figureKeys (data : List (String × List ActivityRow)) : List String :=
  (create_visualizations data).map Prod.fst

/-! ### Dashboard (`create_dash_app` and its callbacks) -/

/-- Python dict lookup `d[k]` as an `Option` (a missing key raises
`KeyError`, modelled by `none`); also `d.get(k)` when combined with a
default. -/
def pyDictGet {α : Type} (d : List (String × α)) (k : String) : Option α :=
  (d.find? (fun p => p.1 == k)).map Prod.snd

/-- `key.split("_")[0]`: the longest prefix of the key up to the first
underscore. -/
def keyCompound (key : String) : String :=
  String.mk (key.data.takeWhile (fun c => !(c == '_')))

/-- The dropdown options of the Home view: one `(label, value)` pair per
entry of `figures`, in order; the value is the figure key, the label is
`f"{compound.capitalize()} - ED50 vs TD50"` with
`compound = key.split("_")[0]`. -/
def dropdown_options (figures : List (String × Figure)) :
    List (String × String) :=
  figures.map (fun p => (pyCapitalize (keyCompound p.1) ++ " - ED50 vs TD50", p.1))

/-- The dropdown's initial value:
`list(figures.keys())[0] if figures else None`. -/
def dropdown_value (figures : List (String × Figure)) : Option String :=
  (figures.map Prod.fst).head?

/-- Whether a figure key belongs to the comparison-chart family, i.e. ends
in `"_ed_td"` (checked on the last six characters). -/
def isComparisonKey (k : String) : Bool :=
  decide (k.data.reverse.take 6 = "_ed_td".data.reverse)

/-- Rendering a possibly-null CSV cell inside an f-string: a present value
renders as itself, the null marker renders as its `str()` form, which is
not an "N/A" default. -/
def pyStr : Option String → String
  | some s => s
  | none => "None"

/-- `info.get(key, default)` followed by f-string interpolation: the default
is used only when the key is absent, not when its value is null. -/
def dictGetD (info : DrugInfoCsv) (k dflt : String) : String :=
  match pyDictGet info k with
  | some v => pyStr v
  | none => dflt

/-- The eight lines of the Home view's property panel (`info_text` in
`update_graph`), each defaulting to "N/A" via `info.get(..., 'N/A')`. -/
def infoLines (info : DrugInfoCsv) : List String :=
  ["Drug: " ++ dictGetD info "Drug" "N/A",
   "Molecular Formula: " ++ dictGetD info "Molecular Formula" "N/A",
   "Molecular Weight: " ++ dictGetD info "Molecular Weight" "N/A" ++ " g/mol",
   "XLogP: " ++ dictGetD info "XLogP" "N/A",
   "H-Bond Donor Count: " ++ dictGetD info "H-Bond Donor Count" "N/A",
   "H-Bond Acceptor Count: " ++ dictGetD info "H-Bond Acceptor Count" "N/A",
   "Exact Mass: " ++ dictGetD info "Exact Mass" "N/A" ++ " g/mol",
   "Topological Polar Surface Area (TPSA): " ++
     dictGetD info "Topological Polar Surface Area (TPSA)" "N/A" ++ " Å²"]

/-- The `update_graph` callback: `figures[selected_compound]` (an unhandled
`KeyError`, i.e. `none`, when the key is missing), then the property panel
from `properties.get(compound_name, {})`. -/
def update_graph (figures : List (String × Figure))
    (properties : List (String × DrugInfoCsv)) (selected_compound : String) :
    Option (Figure × List String) :=
  match pyDictGet figures selected_compound with
  | none => none
  | some fig =>
    let compound_name := keyCompound selected_compound
    let info := (pyDictGet properties compound_name).getD []
    some (fig, infoLines info)

/-! ### Organism view (`display_organism_data`) -/

/-- `df["target_organism"].dropna()`: the non-null organisms, in row order. -/
def dropnaOrganisms (df : List ActivityRow) : List String :=
  df.filterMap (fun r => r.target_organism)

/-- `df["target_organism"].dropna().value_counts().to_dict()`: each distinct
non-null organism paired with its number of occurrences.  (The display
order of `value_counts` is not modelled; first-occurrence order is used.) -/
def organismCounts (df : List ActivityRow) : List (String × Nat) :=
  (dropnaOrganisms df).dedup.map (fun o => (o, (dropnaOrganisms df).count o))

/-- One row of the flat organism table. -/
structure OrgEntry where
  compound : String
  organism : String
  testCount : Nat
deriving DecidableEq

/-- The `display_organism_data` callback's flat table: per compound, one
row per (organism, count) pair of its value counts. -/
def display_organism_data (data : List (String × List ActivityRow)) :
    List OrgEntry :=
  data.flatMap (fun p =>
    (organismCounts p.2).map (fun oc =>
      { compound := pyCapitalize p.1, organism := oc.1, testCount := oc.2 }))

/-! ### Remote data fetcher (`data_gathering.py`) -/

/-- A JSON value, as navigated by `fetch_pubchem_data`. -/
inductive Json where
  | str (s : String)
  | num (n : Int)
  | null
  | arr (elems : List Json)
  | obj (members : List (String × Json))

/-- `data[k]` on a parsed JSON value: a `KeyError` (absent key) or a
`TypeError` (not an object) raises, modelled by `none`. -/
def jsonMember : Json → String → Option Json
  | Json.obj ms, k => (ms.find? (fun p => p.1 == k)).map Prod.snd
  | _, _ => none

/-- `data[i]` on a parsed JSON value: an `IndexError` or `TypeError`
raises, modelled by `none`. -/
def jsonIndex : Json → Nat → Option Json
  | Json.arr es, i => es[i]?
  | _, _ => none

/-- The outcome of the PubChem request as distinguished by the code:
a `requests` failure, a non-2xx status (`raise_for_status`), or a 2xx body
whose `response.json()` either parses (`some`) or raises (`none`). -/
inductive PubChemResponse where
  | requestError
  | httpStatusError
  | success (body : Option Json)

/-- `data["PropertyTable"]["Properties"][0]`: the first result row, `none`
when any step of the navigation raises. -/
def pubchemFirstRow : PubChemResponse → Option Json
  | PubChemResponse.success (some data) =>
    ((jsonMember data "PropertyTable").bind
      (fun t => jsonMember t "Properties")).bind
      (fun props => jsonIndex props 0)
  | _ => none

/-- `fetch_pubchem_data(drug_name)` evaluated against a modelled remote
response: every exception path is caught and yields the empty dict; the
success path builds the eight-field dict via `compound_info.get(...)`. -/
def fetch_pubchem_data (drug_name : String) (resp : PubChemResponse) :
    List (String × Option Json) :=
  match pubchemFirstRow resp with
  | some (Json.obj compound_info) =>
    [("Drug", some (Json.str drug_name)),
     ("Molecular Formula", pyDictGet compound_info "MolecularFormula"),
     ("Molecular Weight", pyDictGet compound_info "MolecularWeight"),
     ("XLogP", pyDictGet compound_info "XLogP"),
     ("H-Bond Donor Count", pyDictGet compound_info "HBondDonorCount"),
     ("H-Bond Acceptor Count", pyDictGet compound_info "HBondAcceptorCount"),
     ("Exact Mass", pyDictGet compound_info "ExactMass"),
     ("Topological Polar Surface Area (TPSA)", pyDictGet compound_info "TPSA")]
  | some _ => []
  | none => []

/-- An `<activity>` element of the ChEMBL XML document.  For each
sub-element name, the outer `Option` is the result of `activity.find(...)`
(present or not) and the inner `Option` is the element's `.text` (an empty
element has text `None`). -/
structure ActivityElem where
  activity_id : Option (Option String)
  assay_description : Option (Option String)
  standard_type : Option (Option String)
  standard_value : Option (Option String)
  standard_units : Option (Option String)
  target_organism : Option (Option String)
  target_pref_name : Option (Option String)
deriving DecidableEq

/-- The dict built for one `<activity>` element by `fetch_chembl_data`. -/
structure ActivityRecord where
  activity_id : Option String
  assay_description : Option String
  standard_type : Option String
  standard_value : Option String
  standard_units : Option String
  target_organism : Option String
  target_pref_name : Option String
deriving DecidableEq

/-- Building the entry dict for one activity element: the first three
sub-elements are accessed unguarded (`activity.find(...).text`), so their
absence raises `AttributeError` (modelled by `.error`); the four guarded
sub-elements map absence to null (`Option.join`). -/
def extractActivity (a : ActivityElem) : Except Unit ActivityRecord :=
  match a.activity_id with
  | none => Except.error ()
  | some aid =>
    match a.assay_description with
    | none => Except.error ()
    | some ad =>
      match a.standard_type with
      | none => Except.error ()
      | some st =>
        Except.ok
          { activity_id := aid,
            assay_description := ad,
            standard_type := st,
            standard_value := a.standard_value.join,
            standard_units := a.standard_units.join,
            target_organism := a.target_organism.join,
            target_pref_name := a.target_pref_name.join }

/-- The `for activity in root.findall(".//activity")` loop: entries are
accumulated in order, and a raised exception abandons the whole
accumulated list (the `except` handler returns `[]`). -/
def extractAll : List ActivityElem → Except Unit (List ActivityRecord)
  | [] => Except.ok []
  | a :: rest =>
    match extractActivity a with
    | Except.error e => Except.error e
    | Except.ok r =>
      match extractAll rest with
      | Except.error e => Except.error e
      | Except.ok rs => Except.ok (r :: rs)

/-- The outcome of the ChEMBL request: a `requests` failure, a non-2xx
status, or a 2xx body whose `ET.fromstring` either parses into a document
with a list of `<activity>` elements (`some`) or raises (`none`). -/
inductive ChemblResponse where
  | requestError
  | httpStatusError
  | success (doc : Option (List ActivityElem))

/-- `fetch_chembl_data(chembl_id)` evaluated against a modelled remote
response: every exception path is caught and yields `[]`. -/
def fetch_chembl_data (chembl_id : String) (resp : ChemblResponse) :
    List ActivityRecord :=
  match resp with
  | ChemblResponse.requestError => []
  | ChemblResponse.httpStatusError => []
  | ChemblResponse.success none => []
  | ChemblResponse.success (some activities) =>
    match extractAll activities with
    | Except.ok activity_data => activity_data
    | Except.error _ => []

/-! ### Concrete fixtures used by witnesses and counterexamples -/

/-- An ED50 activity row. -/
def rowED : ActivityRow :=
  { activity_id := "1", assay_description := "anticonvulsant assay",
    standard_type := "ED50", standard_value := "5",
    standard_units := some "mg/kg", target_organism := some "Mus musculus",
    target_pref_name := none }

/-- A TD50 activity row. -/
def rowTD : ActivityRow :=
  { activity_id := "2", assay_description := "toxicity assay",
    standard_type := "TD50", standard_value := "50",
    standard_units := some "mg/kg", target_organism := some "Rattus norvegicus",
    target_pref_name := none }

/-- A one-compound dataset whose table has one row of each metric. -/
def dataX : List (String × List ActivityRow) := [("x", [rowED, rowTD])]

/-- The figures built for `dataX`. -/
def figsX : List (String × Figure) := create_visualizations dataX

/-- A DrugInfo dict in which every one of the eight fields is present with a
null value (as produced by reading back an all-empty info CSV row). -/
def nullInfo : DrugInfoCsv :=
  [("Drug", none), ("Molecular Formula", none), ("Molecular Weight", none),
   ("XLogP", none), ("H-Bond Donor Count", none),
   ("H-Bond Acceptor Count", none), ("Exact Mass", none),
   ("Topological Polar Surface Area (TPSA)", none)]

/-- A filesystem in which compound `x` has a drug-info file but no activity
file at all. -/
def fsInfoOnly : FileSystem :=
  { activityFile := fun _ => none,
    infoFile := fun p =>
      if p = "drug_info/x_info.csv" then
        some (Except.ok [("Drug", some "x")])
      else none }

/-- A filesystem in which compound `x` has both a loadable activity file
(with one row of each metric) and a loadable drug-info file. -/
def fsFull : FileSystem :=
  { activityFile := fun p =>
      if p = "data/x_activity_data.csv" then
        some (Except.ok [rowED, rowTD])
      else none,
    infoFile := fun p =>
      if p = "drug_info/x_info.csv" then
        some (Except.ok [("Drug", some "x")])
      else none }

/-- A PubChem JSON body with the expected property table, one result row,
and only the MolecularFormula property present. -/
def pubchemBodyX : Json :=
  Json.obj [("PropertyTable", Json.obj
    [("Properties", Json.arr
      [Json.obj [("MolecularFormula", Json.str "C6H6")]])])]

/-- An activity element with the required sub-elements present, an empty
`standard_units` element, and no organism / preferred-name sub-elements. -/
def actElemFull : ActivityElem :=
  { activity_id := some (some "1"),
    assay_description := some (some "anticonvulsant assay"),
    standard_type := some (some "ED50"),
    standard_value := some (some "5"),
    standard_units := some none,
    target_organism := none,
    target_pref_name := none }

/-- An activity element missing every sub-element (so the unguarded
`activity.find("activity_id").text` raises). -/
def actElemBad : ActivityElem :=
  { activity_id := none, assay_description := none, standard_type := none,
    standard_value := none, standard_units := none, target_organism := none,
    target_pref_name := none }

/-- The record extracted from `actElemFull`. -/
def actRecFull : ActivityRecord :=
  { activity_id := some "1",
    assay_description := some "anticonvulsant assay",
    standard_type := some "ED50",
    standard_value := some "5",
    standard_units := none,
    target_organism := none,
    target_pref_name := none }

/-! ### Helper lemmas -/

/-- Appending a fixed suffix to a string is injective. -/
theorem string_append_right_cancel {a b s : String} (h : a ++ s = b ++ s) :
    a = b := by
  apply String.ext
  have hd := congrArg String.data h
  simpa using hd

/-- No comparison key (`.. ++ "_ed_td"`) is a distribution key
(`.. ++ "_distribution"`): the suffixes end in different characters. -/
theorem ed_td_ne_distribution (a b : String) :
    a ++ "_ed_td" ≠ b ++ "_distribution" := by
  intro h
  have hd : a.data ++ "_ed_td".data = b.data ++ "_distribution".data := by
    have := congrArg String.data h
    simpa only [String.data_append] using this
  have e1 : (a.data ++ "_ed_td".data).getLast? = some 'd' := by
    rw [List.getLast?_append]; rfl
  have e2 : (b.data ++ "_distribution".data).getLast? = some 'n' := by
    rw [List.getLast?_append]; rfl
  rw [hd, e2] at e1
  exact absurd e1 (by decide)

/-- `figureKeys` as a flat map over the input entries. -/
theorem figureKeys_flatMap (data : List (String × List ActivityRow)) :
    figureKeys data = data.flatMap (fun p =>
      if hasBothMetrics p.2 then
        [p.1 ++ "_ed_td", p.1 ++ "_distribution"]
      else []) := by
  unfold figureKeys create_visualizations
  rw [List.map_flatMap]
  congr 1
  funext p
  by_cases hb : hasBothMetrics p.2 <;> simp [hb]

/-- Membership in `figureKeys`, characterised. -/
theorem mem_figureKeys {data : List (String × List ActivityRow)} {k : String} :
    k ∈ figureKeys data ↔
      ∃ p ∈ data, hasBothMetrics p.2 = true ∧
        (k = p.1 ++ "_ed_td" ∨ k = p.1 ++ "_distribution") := by
  rw [figureKeys_flatMap]
  simp only [List.mem_flatMap]
  constructor
  · rintro ⟨p, hp, hk⟩
    by_cases hb : hasBothMetrics p.2
    · rw [if_pos hb] at hk
      refine ⟨p, hp, hb, ?_⟩
      simpa using hk
    · rw [if_neg hb] at hk
      cases hk
  · rintro ⟨p, hp, hb, hk⟩
    refine ⟨p, hp, ?_⟩
    rw [if_pos hb]
    simpa using hk

/-- A comparison key is produced exactly for the qualifying compounds. -/
theorem mem_figureKeys_ed {data : List (String × List ActivityRow)}
    {X : String} :
    (X ++ "_ed_td") ∈ figureKeys data ↔
      ∃ p ∈ data, hasBothMetrics p.2 = true ∧ p.1 = X := by
  rw [mem_figureKeys]
  constructor
  · rintro ⟨p, hp, hb, hk | hk⟩
    · exact ⟨p, hp, hb, (string_append_right_cancel hk.symm)⟩
    · exact absurd hk (ed_td_ne_distribution X p.1)
  · rintro ⟨p, hp, hb, hx⟩
    exact ⟨p, hp, hb, Or.inl (by rw [hx])⟩

/-- A distribution key is produced exactly for the qualifying compounds. -/
theorem mem_figureKeys_dist {data : List (String × List ActivityRow)}
    {X : String} :
    (X ++ "_distribution") ∈ figureKeys data ↔
      ∃ p ∈ data, hasBothMetrics p.2 = true ∧ p.1 = X := by
  rw [mem_figureKeys]
  constructor
  · rintro ⟨p, hp, hb, hk | hk⟩
    · exact absurd hk.symm (ed_td_ne_distribution p.1 X)
    · exact ⟨p, hp, hb, (string_append_right_cancel hk.symm)⟩
  · rintro ⟨p, hp, hb, hx⟩
    exact ⟨p, hp, hb, Or.inr (by rw [hx])⟩

/-- In an association list with nodup keys, a key determines its value. -/
theorem nodup_keys_val_eq {α : Type} {data : List (String × α)}
    (h : (data.map Prod.fst).Nodup) {c : String} {a b : α}
    (ha : (c, a) ∈ data) (hb : (c, b) ∈ data) : a = b := by
  induction data with
  | nil => cases ha
  | cons p rest ih =>
    simp only [List.map_cons, List.nodup_cons] at h
    rcases List.mem_cons.1 ha with ha1 | ha1 <;>
      rcases List.mem_cons.1 hb with hb1 | hb1
    · have hab : (c, a) = (c, b) := ha1.trans hb1.symm
      exact congrArg Prod.snd hab
    · exact absurd (List.mem_map_of_mem Prod.fst hb1)
        (by rw [← ha1] at h; exact h.1)
    · exact absurd (List.mem_map_of_mem Prod.fst ha1)
        (by rw [← hb1] at h; exact h.1)
    · exact ih h.2 ha1 hb1

/-- `figureKeys` on a cons. -/
theorem figureKeys_cons (p : String × List ActivityRow)
    (rest : List (String × List ActivityRow)) :
    figureKeys (p :: rest) =
      (if hasBothMetrics p.2 then
        [p.1 ++ "_ed_td", p.1 ++ "_distribution"]
      else []) ++ figureKeys rest := by
  rw [figureKeys_flatMap, figureKeys_flatMap, List.flatMap_cons]

/-- `hasBothMetrics` unfolded to the two existence conditions. -/
theorem hasBothMetrics_iff {df : List ActivityRow} :
    hasBothMetrics df = true ↔
      (∃ r ∈ df, r.standard_type = "ED50") ∧
      (∃ r ∈ df, r.standard_type = "TD50") := by
  simp [hasBothMetrics, metrics, List.any_eq_true]

/-- A compound absent from the input contributes no key matching it. -/
theorem figureKeys_filter_none {rest : List (String × List ActivityRow)}
    {C : String} (hC : C ∉ rest.map Prod.fst) :
    (figureKeys rest).filter
      (fun k => k == C ++ "_ed_td" || k == C ++ "_distribution") = [] := by
  rw [List.filter_eq_nil_iff]
  intro k hk hpred
  rw [mem_figureKeys] at hk
  obtain ⟨p, hp, _, hcase⟩ := hk
  simp only [Bool.or_eq_true, beq_iff_eq] at hpred
  have hmem : C ∈ rest.map Prod.fst → False := fun h => hC h
  rcases hcase with rfl | rfl <;> rcases hpred with he | he
  · exact hmem (string_append_right_cancel he ▸ List.mem_map_of_mem Prod.fst hp)
  · exact ed_td_ne_distribution p.1 C he
  · exact ed_td_ne_distribution C p.1 he.symm
  · exact hmem (string_append_right_cancel he ▸ List.mem_map_of_mem Prod.fst hp)

/-- With nodup compounds, the keys matching compound `C` are exactly its
pair of keys when its table qualifies, and nothing otherwise. -/
theorem figureKeys_filter_pair {data : List (String × List ActivityRow)}
    {C : String} {tbl : List ActivityRow}
    (hnd : (data.map Prod.fst).Nodup) (hmem : (C, tbl) ∈ data) :
    (figureKeys data).filter
      (fun k => k == C ++ "_ed_td" || k == C ++ "_distribution") =
      (if hasBothMetrics tbl then
        [C ++ "_ed_td", C ++ "_distribution"]
      else []) := by
  induction data with
  | nil => cases hmem
  | cons p rest ih =>
    rw [figureKeys_cons, List.filter_append]
    simp only [List.map_cons, List.nodup_cons] at hnd
    rcases List.mem_cons.1 hmem with hp | hp
    · have hC : C ∉ rest.map Prod.fst := by
        rw [← hp] at hnd
        exact hnd.1
      rw [figureKeys_filter_none hC, List.append_nil, ← hp]
      by_cases hb : hasBothMetrics tbl <;> simp [hb]
    · have hpC : p.1 ≠ C := by
        intro he
        exact hnd.1 (he ▸ List.mem_map_of_mem Prod.fst hp)
      have h1 : (p.1 ++ "_ed_td" == C ++ "_ed_td" ||
          p.1 ++ "_ed_td" == C ++ "_distribution") = false := by
        simp only [Bool.or_eq_false_iff, beq_eq_false_iff_ne, ne_eq]
        exact ⟨fun he => hpC (string_append_right_cancel he),
          ed_td_ne_distribution p.1 C⟩
      have h2 : (p.1 ++ "_distribution" == C ++ "_ed_td" ||
          p.1 ++ "_distribution" == C ++ "_distribution") = false := by
        simp only [Bool.or_eq_false_iff, beq_eq_false_iff_ne, ne_eq]
        exact ⟨fun he => ed_td_ne_distribution C p.1 he.symm,
          fun he => hpC (string_append_right_cancel he)⟩
      have hhead : (if hasBothMetrics p.2 then
          [p.1 ++ "_ed_td", p.1 ++ "_distribution"] else []).filter
          (fun k => k == C ++ "_ed_td" || k == C ++ "_distribution") = [] := by
        by_cases hb : hasBothMetrics p.2 <;>
          simp [hb, List.filter_cons, h1, h2]
      rw [hhead, List.nil_append]
      exact ih hnd.2 hp

/-- Claim C1: `create_visualizations` produces figures for a compound `C`
if and only if `C`'s table contains at least one ED50 row and at least one
TD50 row; when it does, the keys matching `C` are exactly
`C ++ "_ed_td"` and `C ++ "_distribution"`, and a compound lacking one
metric contributes no key. -/
theorem create_visualizations_keys_iff
    {data : List (String × List ActivityRow)} {C : String}
    {tbl : List ActivityRow}
    (hnd : (data.map Prod.fst).Nodup) (hmem : (C, tbl) ∈ data) :
    (((C ++ "_ed_td") ∈ figureKeys data ∧
        (C ++ "_distribution") ∈ figureKeys data) ↔
      ((∃ r ∈ tbl, r.standard_type = "ED50") ∧
        (∃ r ∈ tbl, r.standard_type = "TD50"))) ∧
    (figureKeys data).filter
        (fun k => k == C ++ "_ed_td" || k == C ++ "_distribution") =
      (if hasBothMetrics tbl then
        [C ++ "_ed_td", C ++ "_distribution"]
      else []) := by
  constructor
  · rw [← hasBothMetrics_iff]
    constructor
    · rintro ⟨h1, _⟩
      rw [mem_figureKeys_ed] at h1
      obtain ⟨p, hp, hb, hx⟩ := h1
      have hpair : (C, p.2) ∈ data := by
        rw [← hx]
        exact hp
      have : p.2 = tbl := nodup_keys_val_eq hnd hpair hmem
      rw [← this]
      exact hb
    · intro hb
      exact ⟨mem_figureKeys_ed.2 ⟨(C, tbl), hmem, hb, rfl⟩,
        mem_figureKeys_dist.2 ⟨(C, tbl), hmem, hb, rfl⟩⟩
  · exact figureKeys_filter_pair hnd hmem

/-- Witness for C1, at the concrete dataset `dataX`. -/
theorem create_visualizations_keys_iff_witness :
    ((dataX.map Prod.fst).Nodup ∧ ("x", [rowED, rowTD]) ∈ dataX) ∧
    (((("x" ++ "_ed_td") ∈ figureKeys dataX ∧
        ("x" ++ "_distribution") ∈ figureKeys dataX) ↔
      ((∃ r ∈ [rowED, rowTD], r.standard_type = "ED50") ∧
        (∃ r ∈ [rowED, rowTD], r.standard_type = "TD50"))) ∧
    (figureKeys dataX).filter
        (fun k => k == "x" ++ "_ed_td" || k == "x" ++ "_distribution") =
      (if hasBothMetrics [rowED, rowTD] then
        ["x" ++ "_ed_td", "x" ++ "_distribution"]
      else [])) :=
  ⟨⟨by decide, by decide⟩,
    create_visualizations_keys_iff (by decide) (by decide)⟩

/-- Claim C10: figure keys come in pairs — for each compound `C` the
comparison key is present iff the distribution key is — the key list
always has even length, and a non-empty key list starts with a
comparison key. -/
theorem figure_keys_paired (data : List (String × List ActivityRow))
    (C : String) :
    ((C ++ "_ed_td") ∈ figureKeys data ↔
      (C ++ "_distribution") ∈ figureKeys data) ∧
    (figureKeys data).length % 2 = 0 ∧
    (figureKeys data ≠ [] →
      ∃ c, (figureKeys data).head? = some (c ++ "_ed_td")) := by
  refine ⟨by rw [mem_figureKeys_ed, mem_figureKeys_dist], ?_, ?_⟩
  · induction data with
    | nil => rfl
    | cons p rest ih =>
      rw [figureKeys_cons, List.length_append]
      by_cases hb : hasBothMetrics p.2 <;> simp [hb] <;> omega
  · induction data with
    | nil => intro h; exact absurd rfl h
    | cons p rest ih =>
      rw [figureKeys_cons]
      by_cases hb : hasBothMetrics p.2
      · intro _
        rw [if_pos hb]
        exact ⟨p.1, rfl⟩
      · rw [if_neg hb, List.nil_append]
        exact ih

/-- Witness for C10, at the concrete dataset `dataX`. -/
theorem figure_keys_paired_witness :
    (("x" ++ "_ed_td") ∈ figureKeys dataX ↔
      ("x" ++ "_distribution") ∈ figureKeys dataX) ∧
    (figureKeys dataX).length % 2 = 0 ∧
    (figureKeys dataX ≠ [] ∧
      ∃ c, (figureKeys dataX).head? = some (c ++ "_ed_td")) := by
  obtain ⟨h1, h2, h3⟩ := figure_keys_paired dataX "x"
  exact ⟨h1, h2, by decide, h3 (by decide)⟩

/-- The activity entry produced by one loop iteration of `load_data`. -/
theorem processCompound_fst (fs : FileSystem) (dataDir compound : String) :
    (processCompound fs dataDir compound).1 =
      (activityOk fs dataDir compound).map (fun df => (compound, df)) := by
  unfold processCompound activityOk
  cases fs.activityFile (activityPath dataDir compound) with
  | none => rfl
  | some r =>
    cases r with
    | error e => rfl
    | ok df =>
      by_cases he : (filterMetrics df).isEmpty
      · simp [he]
      · simp only [he, Bool.false_eq_true, if_false, Option.map_some]
        cases fs.infoFile (infoPath compound) with
        | none => rfl
        | some ri => cases ri <;> rfl

/-- The properties entry produced by one loop iteration of `load_data`:
drug info is recorded only when the activity condition already holds. -/
theorem processCompound_snd (fs : FileSystem) (dataDir compound : String) :
    (processCompound fs dataDir compound).2 =
      (if (activityOk fs dataDir compound).isSome then
        (infoOk fs compound).map (fun info => (compound, info))
      else none) := by
  unfold processCompound activityOk infoOk
  cases fs.activityFile (activityPath dataDir compound) with
  | none => rfl
  | some r =>
    cases r with
    | error e => rfl
    | ok df =>
      by_cases he : (filterMetrics df).isEmpty
      · simp [he]
      · simp only [he, Bool.false_eq_true, if_false, Option.isSome_some,
          if_true]
        cases fs.infoFile (infoPath compound) with
        | none => rfl
        | some ri => cases ri <;> rfl

/-- Membership in the activity mapping returned by `load_data`. -/
theorem load_data_mem_fst (fs : FileSystem) (dataDir : String)
    (compounds : List String) (c : String) :
    c ∈ (load_data fs dataDir compounds).1.map Prod.fst ↔
      c ∈ compounds ∧ ∃ df, activityOk fs dataDir c = some df := by
  induction compounds with
  | nil => simp [load_data]
  | cons x rest ih =>
    simp only [load_data]
    rw [List.map_append, List.mem_append, processCompound_fst]
    constructor
    · rintro (h1 | h2)
      · cases ho : activityOk fs dataDir x with
        | none => rw [ho] at h1; cases h1
        | some df =>
          rw [ho] at h1
          simp only [Option.map_some', Option.toList_some, List.map_cons,
            List.map_nil, List.mem_singleton] at h1
          subst h1
          exact ⟨List.mem_cons_self _ _, df, ho⟩
      · obtain ⟨hc, hdf⟩ := ih.1 h2
        exact ⟨List.mem_cons_of_mem x hc, hdf⟩
    · rintro ⟨hc, df, ho⟩
      rcases List.mem_cons.1 hc with rfl | hc2
      · left
        rw [ho]
        simp
      · right
        exact ih.2 ⟨hc2, df, ho⟩

/-- Membership in the properties mapping returned by `load_data`. -/
theorem load_data_mem_snd (fs : FileSystem) (dataDir : String)
    (compounds : List String) (c : String) :
    c ∈ (load_data fs dataDir compounds).2.map Prod.fst ↔
      c ∈ compounds ∧ (∃ df, activityOk fs dataDir c = some df) ∧
        ∃ info, infoOk fs c = some info := by
  induction compounds with
  | nil => simp [load_data]
  | cons x rest ih =>
    simp only [load_data]
    rw [List.map_append, List.mem_append, processCompound_snd]
    constructor
    · rintro (h1 | h2)
      · by_cases ha : (activityOk fs dataDir x).isSome
        · rw [if_pos ha] at h1
          cases hi : infoOk fs x with
          | none => rw [hi] at h1; cases h1
          | some info =>
            rw [hi] at h1
            simp only [Option.map_some', Option.toList_some, List.map_cons,
              List.map_nil, List.mem_singleton] at h1
            subst h1
            obtain ⟨df, hdf⟩ := Option.isSome_iff_exists.1 ha
            exact ⟨List.mem_cons_self _ _, ⟨df, hdf⟩, info, hi⟩
        · rw [if_neg ha] at h1
          cases h1
      · obtain ⟨hc, hrest⟩ := ih.1 h2
        exact ⟨List.mem_cons_of_mem x hc, hrest⟩
    · rintro ⟨hc, ⟨df, hdf⟩, info, hi⟩
      rcases List.mem_cons.1 hc with rfl | hc2
      · left
        rw [if_pos (by rw [hdf]; rfl), hi]
        simp
      · right
        exact ih.2 ⟨hc2, ⟨df, hdf⟩, info, hi⟩

/-- `load_data` processes each compound independently: the batch splits. -/
theorem load_data_append (fs : FileSystem) (dataDir : String)
    (l1 l2 : List String) :
    load_data fs dataDir (l1 ++ l2) =
      ((load_data fs dataDir l1).1 ++ (load_data fs dataDir l2).1,
       (load_data fs dataDir l1).2 ++ (load_data fs dataDir l2).2) := by
  induction l1 with
  | nil => simp [load_data]
  | cons x rest ih => simp [load_data, ih]

/-- The activity-keeping condition spelled out on the filesystem. -/
theorem activityOk_iff (fs : FileSystem) (dataDir c : String) :
    (∃ df, activityOk fs dataDir c = some df) ↔
      ∃ rows, fs.activityFile (activityPath dataDir c) =
          some (Except.ok rows) ∧ filterMetrics rows ≠ [] := by
  unfold activityOk
  cases h : fs.activityFile (activityPath dataDir c) with
  | none => simp
  | some r =>
    cases r with
    | error e => simp
    | ok df =>
      by_cases he : (filterMetrics df).isEmpty
      · have hnil := List.isEmpty_iff.1 he
        simp only [he, Bool.false_eq_true, if_true, if_false]
        constructor
        · rintro ⟨x, hx⟩
          cases hx
        · rintro ⟨rows, hr, hne⟩
          cases hr
          exact absurd hnil hne
      · have hne := fun hnil => he (List.isEmpty_iff.2 hnil)
        simp only [he, Bool.false_eq_true, if_false]
        constructor
        · rintro ⟨x, _⟩
          exact ⟨df, rfl, hne⟩
        · intro _
          exact ⟨filterMetrics df, rfl⟩

/-- The info-loading condition spelled out on the filesystem. -/
theorem infoOk_iff (fs : FileSystem) (c : String) :
    (∃ i, infoOk fs c = some i) ↔
      ∃ info, fs.infoFile (infoPath c) = some (Except.ok info) := by
  unfold infoOk
  cases h : fs.infoFile (infoPath c) with
  | none => simp
  | some r =>
    cases r with
    | error e => simp
    | ok info => simp

/-- Claim C3: `load_data` includes a compound in the activity mapping iff
its activity file exists, loads, and retains a row after the ED50/TD50
filter; compounds are processed independently, so a per-compound failure
never disturbs the rest of the batch. -/
theorem load_data_activity_membership (fs : FileSystem) (dataDir : String)
    (compounds : List String) (c : String) :
    (c ∈ (load_data fs dataDir compounds).1.map Prod.fst ↔
      c ∈ compounds ∧
        ∃ rows, fs.activityFile (activityPath dataDir c) =
            some (Except.ok rows) ∧ filterMetrics rows ≠ []) ∧
    (∀ l1 l2 : List String,
      load_data fs dataDir (l1 ++ l2) =
        ((load_data fs dataDir l1).1 ++ (load_data fs dataDir l2).1,
         (load_data fs dataDir l1).2 ++ (load_data fs dataDir l2).2)) :=
  ⟨(load_data_mem_fst fs dataDir compounds c).trans
      (and_congr Iff.rfl (activityOk_iff fs dataDir c)),
    load_data_append fs dataDir⟩

/-- Witness for C3: a compound with a loadable, non-trivially-filtered
activity file is included in the activity mapping. -/
theorem load_data_activity_membership_witness :
    "x" ∈ (load_data fsFull "data" ["x"]).1.map Prod.fst ∧
    (load_data fsFull "data" (["x"] ++ ["y"])).1 =
      (load_data fsFull "data" ["x"]).1 ++ (load_data fsFull "data" ["y"]).1 :=
  ⟨(load_data_activity_membership fsFull "data" ["x"] "x").1.mpr
      ⟨by decide, [rowED, rowTD], rfl, by decide⟩,
    congrArg Prod.fst
      ((load_data_activity_membership fsFull "data" ["x"] "x").2
        ["x"] ["y"])⟩

/-- Counterexample to claim C2: a compound whose drug-info file exists but
whose activity file is absent is not loaded into the DrugInfo mapping —
the info lookup is not independent of the activity lookup. -/
theorem load_data_info_not_independent_cex :
    (fsInfoOnly.infoFile (infoPath "x")).isSome = true ∧
    "x" ∈ ["x"] ∧
    (load_data fsInfoOnly "data" ["x"]).2 = [] := by
  refine ⟨?_, by decide, ?_⟩ <;> decide

/-- Claim C2 (amended): `load_data` loads the first row of
`drug_info/{compound}_info.csv` into the DrugInfo mapping iff the compound
is in the manifest, its activity file exists, loads and filters to a
non-empty table, and the info file is present and loadable — not
independently of the activity lookup. -/
theorem load_data_info_membership (fs : FileSystem) (dataDir : String)
    (compounds : List String) (c : String) :
    c ∈ (load_data fs dataDir compounds).2.map Prod.fst ↔
      c ∈ compounds ∧
        (∃ rows, fs.activityFile (activityPath dataDir c) =
            some (Except.ok rows) ∧ filterMetrics rows ≠ []) ∧
        (∃ info, fs.infoFile (infoPath c) = some (Except.ok info)) :=
  (load_data_mem_snd fs dataDir compounds c).trans
    (and_congr Iff.rfl
      (and_congr (activityOk_iff fs dataDir c) (infoOk_iff fs c)))

/-- Witness for C2 (amended): the compound of `fsFull` satisfies both the
activity and the info condition and lands in the DrugInfo mapping. -/
theorem load_data_info_membership_witness :
    "x" ∈ (load_data fsFull "data" ["x"]).2.map Prod.fst :=
  (load_data_info_membership fsFull "data" ["x"] "x").mpr
    ⟨by decide, ⟨[rowED, rowTD], rfl, by decide⟩,
      [("Drug", some "x")], rfl⟩

/-- Comparison keys satisfy the family test. -/
theorem isComparisonKey_ed (c : String) :
    isComparisonKey (c ++ "_ed_td") = true := by
  unfold isComparisonKey
  apply decide_eq_true
  rw [String.data_append, List.reverse_append]
  exact List.take_left' (by decide)

/-- Distribution keys fail the family test. -/
theorem isComparisonKey_dist (c : String) :
    isComparisonKey (c ++ "_distribution") = false := by
  unfold isComparisonKey
  apply decide_eq_false
  intro h
  rw [String.data_append, List.reverse_append] at h
  rw [show "_distribution".data.reverse =
      (['n', 'o', 'i', 't', 'u', 'b'] : List Char) ++
        ['i', 'r', 't', 's', 'i', 'd', '_'] from by decide] at h
  rw [List.append_assoc, List.take_left' (by decide)] at h
  exact absurd h (by decide)

/-- Counterexample to claim C4: for the one-compound dataset `dataX` the
dropdown's option values include the distribution key, which is not in the
comparison-chart family, so the options are not exactly the comparison
keys. -/
theorem dropdown_offers_non_comparison_keys_cex :
    (dropdown_options figsX).map Prod.snd = ["x_ed_td", "x_distribution"] ∧
    (figsX.map Prod.fst).filter isComparisonKey = ["x_ed_td"] ∧
    isComparisonKey "x_distribution" = false ∧
    (dropdown_options figsX).map Prod.snd ≠
      (figsX.map Prod.fst).filter isComparisonKey := by
  refine ⟨?_, ?_, ?_, ?_⟩ <;> decide

/-- Claim C4 (amended): the Home dropdown offers one option per figure key
— all figure keys, of both families, in insertion order — and its default
value is the first figure key (`none` when there are no figures). -/
theorem dropdown_options_all_keys (figures : List (String × Figure)) :
    (dropdown_options figures).map Prod.snd = figures.map Prod.fst ∧
    dropdown_value figures = (figures.map Prod.fst).head? := by
  constructor
  · unfold dropdown_options
    rw [List.map_map]
    rfl
  · rfl

/-- A dict lookup misses exactly when the key is not among the keys. -/
theorem pyDictGet_eq_none {α : Type} {d : List (String × α)} {k : String} :
    pyDictGet d k = none ↔ k ∉ d.map Prod.fst := by
  unfold pyDictGet
  rw [Option.map_eq_none', List.find?_eq_none]
  constructor
  · intro h hk
    obtain ⟨p, hp, hpk⟩ := List.mem_map.1 hk
    exact h p hp (beq_iff_eq.2 hpk)
  · intro h p hp hbeq
    exact h (List.mem_map.2 ⟨p, hp, beq_iff_eq.1 hbeq⟩)

/-- Claim C9: `update_graph` fails with an unhandled lookup (`none`)
exactly when the selected value is not a figure key; nothing is validated
before the lookup. -/
theorem update_graph_unknown_key (figures : List (String × Figure))
    (properties : List (String × DrugInfoCsv)) (selected : String) :
    update_graph figures properties selected = none ↔
      selected ∉ figures.map Prod.fst := by
  unfold update_graph
  cases h : pyDictGet figures selected with
  | none => simp [pyDictGet_eq_none.1 h]
  | some fig =>
    have hmem : selected ∈ figures.map Prod.fst := by
      by_contra hc
      rw [pyDictGet_eq_none.2 hc] at h
      cases h
    simp [hmem]

/-- Witness for C9: an unknown selection makes `update_graph` fail. -/
theorem update_graph_unknown_key_witness :
    ("nope" ∉ figsX.map Prod.fst) ∧
    update_graph figsX [] "nope" = none :=
  ⟨by decide, (update_graph_unknown_key figsX [] "nope").mpr (by decide)⟩

/-- Counterexample to claim C5: with every DrugInfo field present but
null, the panel renders the null marker's string form, not "N/A". -/
theorem update_graph_null_fields_cex :
    pyDictGet nullInfo "Drug" = some none ∧
    (update_graph figsX [("x", nullInfo)] "x_ed_td").map Prod.snd =
      some ["Drug: None", "Molecular Formula: None",
        "Molecular Weight: None g/mol", "XLogP: None",
        "H-Bond Donor Count: None", "H-Bond Acceptor Count: None",
        "Exact Mass: None g/mol",
        "Topological Polar Surface Area (TPSA): None Å²"] ∧
    ("Drug: None" ≠ "Drug: N/A") := by
  refine ⟨by decide, by decide, by decide⟩

/-- Claim C5 (amended): the "N/A" default applies to the fields absent
from the compound's DrugInfo dict (a present-but-null field renders its
null marker instead); in particular a compound with no DrugInfo entry at
all renders all eight panel fields as "N/A". -/
theorem update_graph_absent_fields_na (figures : List (String × Figure))
    (properties : List (String × DrugInfoCsv)) (selected : String)
    (fig : Figure) (hfig : pyDictGet figures selected = some fig)
    (hinfo : pyDictGet properties (keyCompound selected) = none) :
    update_graph figures properties selected =
      some (fig, ["Drug: N/A", "Molecular Formula: N/A",
        "Molecular Weight: N/A g/mol", "XLogP: N/A",
        "H-Bond Donor Count: N/A", "H-Bond Acceptor Count: N/A",
        "Exact Mass: N/A g/mol",
        "Topological Polar Surface Area (TPSA): N/A Å²"]) ∧
    (∀ (info : DrugInfoCsv) (k : String), pyDictGet info k = none →
      dictGetD info k "N/A" = "N/A") := by
  constructor
  · unfold update_graph
    rw [hfig]
    dsimp only
    rw [hinfo]
    rfl
  · intro info k h
    unfold dictGetD
    rw [h]

/-- Witness for C5 (amended): a compound with no DrugInfo entry renders
all eight fields as "N/A". -/
theorem update_graph_absent_fields_na_witness :
    (pyDictGet figsX "x_ed_td" = some (scatterFig "x" [rowED, rowTD]) ∧
      pyDictGet ([] : List (String × DrugInfoCsv))
        (keyCompound "x_ed_td") = none) ∧
    (update_graph figsX [] "x_ed_td" =
      some (scatterFig "x" [rowED, rowTD],
        ["Drug: N/A", "Molecular Formula: N/A",
        "Molecular Weight: N/A g/mol", "XLogP: N/A",
        "H-Bond Donor Count: N/A", "H-Bond Acceptor Count: N/A",
        "Exact Mass: N/A g/mol",
        "Topological Polar Surface Area (TPSA): N/A Å²"]) ∧
    (∀ (info : DrugInfoCsv) (k : String), pyDictGet info k = none →
      dictGetD info k "N/A" = "N/A")) :=
  ⟨⟨by decide, rfl⟩,
    update_graph_absent_fields_na figsX [] "x_ed_td"
      (scatterFig "x" [rowED, rowTD]) (by decide) rfl⟩

/-- Membership in a compound's organism value counts, characterised. -/
theorem mem_organismCounts {df : List ActivityRow} {o : String} {n : Nat} :
    (o, n) ∈ organismCounts df ↔
      o ∈ dropnaOrganisms df ∧ n = (dropnaOrganisms df).count o := by
  unfold organismCounts
  simp only [List.mem_map]
  constructor
  · rintro ⟨o2, ho2, he⟩
    cases he
    exact ⟨List.mem_dedup.1 ho2, rfl⟩
  · rintro ⟨ho, rfl⟩
    exact ⟨o, List.mem_dedup.2 ho, rfl⟩

/-- Claim C8: the organism summary underlying `display_organism_data` is
order-independent — permuting a compound's rows leaves every
(organism, count) pair unchanged — and summing a compound's counts over
its organisms equals its number of rows with a non-null organism. -/
theorem organism_counts_props :
    (∀ (df df2 : List ActivityRow), df.Perm df2 →
      ∀ (o : String) (n : Nat),
        (o, n) ∈ organismCounts df ↔ (o, n) ∈ organismCounts df2) ∧
    (∀ df : List ActivityRow,
      ((organismCounts df).map Prod.snd).sum =
        (df.filter (fun r => r.target_organism.isSome)).length) ∧
    (∀ (c : String) (df : List ActivityRow),
      (display_organism_data [(c, df)]).map (fun e => e.testCount) =
        (organismCounts df).map Prod.snd) := by
  refine ⟨?_, ?_, ?_⟩
  · intro df df2 hp o n
    have hocc : (dropnaOrganisms df).Perm (dropnaOrganisms df2) := by
      unfold dropnaOrganisms
      exact hp.filterMap (fun r => r.target_organism)
    rw [mem_organismCounts, mem_organismCounts, hocc.mem_iff,
      hocc.count_eq]
  · intro df
    unfold organismCounts
    rw [List.map_map]
    have hmm : (dropnaOrganisms df).dedup.map
        (Prod.snd ∘ fun o => (o, (dropnaOrganisms df).count o)) =
        (dropnaOrganisms df).dedup.map
          (fun o => (dropnaOrganisms df).count o) := rfl
    rw [hmm, List.sum_map_count_dedup_eq_length]
    unfold dropnaOrganisms
    rw [List.length_filterMap_eq_countP, List.countP_eq_length_filter]
  · intro c df
    unfold display_organism_data
    rw [List.flatMap_cons, List.flatMap_nil, List.append_nil,
      List.map_map]
    rfl

/-- Witness for C8, at a concrete two-row table and its transposition. -/
theorem organism_counts_props_witness :
    ([rowED, rowTD].Perm [rowTD, rowED]) ∧
    (∀ (o : String) (n : Nat),
      (o, n) ∈ organismCounts [rowED, rowTD] ↔
        (o, n) ∈ organismCounts [rowTD, rowED]) ∧
    ((organismCounts [rowED, rowTD]).map Prod.snd).sum =
      ([rowED, rowTD].filter (fun r => r.target_organism.isSome)).length ∧
    (display_organism_data [("x", [rowED, rowTD])]).map
        (fun e => e.testCount) =
      (organismCounts [rowED, rowTD]).map Prod.snd :=
  ⟨List.Perm.swap rowTD rowED [],
    organism_counts_props.1 _ _ (List.Perm.swap rowTD rowED []),
    organism_counts_props.2.1 _,
    organism_counts_props.2.2 "x" [rowED, rowTD]⟩

/-- Claim C6: `fetch_pubchem_data` never raises: every failure outcome
(network failure, HTTP error status, malformed JSON, a missing or
non-navigable property table, an empty result list, a non-dict first row)
yields the empty dict, and a parseable response yields the dict built from
the first result row with each property looked up by `.get`. -/
theorem fetch_pubchem_never_raises (drug_name : String) :
    (fetch_pubchem_data drug_name PubChemResponse.requestError = []) ∧
    (fetch_pubchem_data drug_name PubChemResponse.httpStatusError = []) ∧
    (fetch_pubchem_data drug_name (PubChemResponse.success none) = []) ∧
    (∀ resp, pubchemFirstRow resp = none →
      fetch_pubchem_data drug_name resp = []) ∧
    (∀ resp compound_info,
      pubchemFirstRow resp = some (Json.obj compound_info) →
      fetch_pubchem_data drug_name resp =
        [("Drug", some (Json.str drug_name)),
         ("Molecular Formula", pyDictGet compound_info "MolecularFormula"),
         ("Molecular Weight", pyDictGet compound_info "MolecularWeight"),
         ("XLogP", pyDictGet compound_info "XLogP"),
         ("H-Bond Donor Count", pyDictGet compound_info "HBondDonorCount"),
         ("H-Bond Acceptor Count",
           pyDictGet compound_info "HBondAcceptorCount"),
         ("Exact Mass", pyDictGet compound_info "ExactMass"),
         ("Topological Polar Surface Area (TPSA)",
           pyDictGet compound_info "TPSA")]) := by
  refine ⟨rfl, rfl, rfl, ?_, ?_⟩
  · intro resp h
    unfold fetch_pubchem_data
    rw [h]
  · intro resp compound_info h
    unfold fetch_pubchem_data
    rw [h]

/-- Witness for C6: a parseable body yields the parsed dict with missing
properties null; a network failure yields the empty dict. -/
theorem fetch_pubchem_never_raises_witness :
    pubchemFirstRow (PubChemResponse.success (some pubchemBodyX)) =
      some (Json.obj [("MolecularFormula", Json.str "C6H6")]) ∧
    fetch_pubchem_data "benzene"
        (PubChemResponse.success (some pubchemBodyX)) =
      [("Drug", some (Json.str "benzene")),
       ("Molecular Formula", some (Json.str "C6H6")),
       ("Molecular Weight", none), ("XLogP", none),
       ("H-Bond Donor Count", none), ("H-Bond Acceptor Count", none),
       ("Exact Mass", none),
       ("Topological Polar Surface Area (TPSA)", none)] ∧
    fetch_pubchem_data "benzene" PubChemResponse.requestError = [] := by
  refine ⟨rfl, ?_, (fetch_pubchem_never_raises "benzene").1⟩
  have h := (fetch_pubchem_never_raises "benzene").2.2.2.2
    (PubChemResponse.success (some pubchemBodyX))
    [("MolecularFormula", Json.str "C6H6")] rfl
  rw [h]
  rfl

/-- An `extractAll` success extracts one record per activity element. -/
theorem extractAll_ok_length :
    ∀ {acts : List ActivityElem} {recs : List ActivityRecord},
      extractAll acts = Except.ok recs → recs.length = acts.length := by
  intro acts
  induction acts with
  | nil =>
    intro recs h
    cases h
    rfl
  | cons a rest ih =>
    intro recs h
    unfold extractAll at h
    cases he : extractActivity a with
    | error e =>
      rw [he] at h
      cases h
    | ok r =>
      rw [he] at h
      cases hr : extractAll rest with
      | error e =>
        rw [hr] at h
        cases h
      | ok rs =>
        rw [hr] at h
        cases h
        simp [ih hr]

/-- Claim C7: `fetch_chembl_data` never raises and never returns a partial
sequence: every failure outcome (network failure, HTTP error status, XML
parse failure, or an exception while extracting any activity element)
yields `[]`; a fully extractable document yields one record per activity
element, with each guarded optional sub-element mapped to null when
absent. -/
theorem fetch_chembl_never_raises (chembl_id : String) :
    (fetch_chembl_data chembl_id ChemblResponse.requestError = []) ∧
    (fetch_chembl_data chembl_id ChemblResponse.httpStatusError = []) ∧
    (fetch_chembl_data chembl_id (ChemblResponse.success none) = []) ∧
    (∀ activities recs, extractAll activities = Except.ok recs →
      fetch_chembl_data chembl_id
          (ChemblResponse.success (some activities)) = recs ∧
        recs.length = activities.length) ∧
    (∀ activities e, extractAll activities = Except.error e →
      fetch_chembl_data chembl_id
        (ChemblResponse.success (some activities)) = []) ∧
    (∀ a r, extractActivity a = Except.ok r →
      r.standard_value = a.standard_value.join ∧
      r.standard_units = a.standard_units.join ∧
      r.target_organism = a.target_organism.join ∧
      r.target_pref_name = a.target_pref_name.join) ∧
    (∀ activities,
      fetch_chembl_data chembl_id
          (ChemblResponse.success (some activities)) = [] ∨
      (fetch_chembl_data chembl_id
          (ChemblResponse.success (some activities))).length =
        activities.length) := by
  refine ⟨rfl, rfl, rfl, ?_, ?_, ?_, ?_⟩
  · intro activities recs h
    constructor
    · unfold fetch_chembl_data
      dsimp only
      rw [h]
    · exact extractAll_ok_length h
  · intro activities e h
    unfold fetch_chembl_data
    dsimp only
    rw [h]
  · intro a r h
    unfold extractActivity at h
    cases h1 : a.activity_id with
    | none =>
      rw [h1] at h
      cases h
    | some aid =>
      rw [h1] at h
      cases h2 : a.assay_description with
      | none =>
        rw [h2] at h
        cases h
      | some ad =>
        rw [h2] at h
        cases h3 : a.standard_type with
        | none =>
          rw [h3] at h
          cases h
        | some st =>
          rw [h3] at h
          cases h
          exact ⟨rfl, rfl, rfl, rfl⟩
  · intro activities
    cases hr : extractAll activities with
    | error e =>
      left
      unfold fetch_chembl_data
      dsimp only
      rw [hr]
    | ok recs =>
      right
      unfold fetch_chembl_data
      dsimp only
      rw [hr]
      exact extractAll_ok_length hr

/-- Witness for C7: one extractable element yields its record (absent
optional sub-elements null); adding an element whose required sub-element
is missing wipes the whole result to `[]`, never a partial list. -/
theorem fetch_chembl_never_raises_witness :
    extractAll [actElemFull] = Except.ok [actRecFull] ∧
    fetch_chembl_data "CHEMBL1"
        (ChemblResponse.success (some [actElemFull])) = [actRecFull] ∧
    extractAll [actElemFull, actElemBad] = Except.error () ∧
    fetch_chembl_data "CHEMBL1"
        (ChemblResponse.success (some [actElemFull, actElemBad])) = [] ∧
    actRecFull.target_organism = none :=
  ⟨rfl,
    ((fetch_chembl_never_raises "CHEMBL1").2.2.2.1 [actElemFull]
      [actRecFull] rfl).1,
    rfl,
    (fetch_chembl_never_raises "CHEMBL1").2.2.2.2.1
      [actElemFull, actElemBad] () rfl,
    rfl⟩

end Chem
